import Mathlib

/- Shallow embedding of src/src/kaldi_recognizer.cc (the KaldiRecognizer session
   logic).  External Kaldi/OpenFst collaborators (feature pipeline internals, the
   incremental decoder, lattice algorithms, neural network inference, JSON
   rendering of non-constant payloads) are deterministic opaque engines; they are
   modeled as function parameters bundled in the Engine structure below. -/

/-- Session states, kaldi_recognizer.h / kaldi_recognizer.cc (state_ field). -/
inductive RecognizerState
  | INITIALIZED
  | RUNNING
  | ENDPOINT
  | FINALIZED
  deriving DecidableEq, Repr

open RecognizerState

/-- The mutable session state of KaldiRecognizer.  Pointer-valued sub-resources
are reduced to the observable data the claims need: hasDecoder models
decoder_ != nullptr; pipelineSamples models the waveform accumulated in the
current feature_pipeline_; decoderFrames models decoder_->NumFramesDecoded();
decoderStart models the frame the decoder was last InitDecoding at;
spkSamples models the waveform fed to spk_feature_.  silence_weighting_ has no
counter observable by any claim and is not modeled. -/
structure Session where
  state : RecognizerState
  sample_frequency : ℚ
  max_alternatives : Int
  words : Bool
  hasSpkModel : Bool
  frame_offset : Nat
  samples_processed : Nat
  samples_round_start : Nat
  hasDecoder : Bool
  decoderFrames : Nat
  decoderStart : Nat
  pipelineSamples : List ℚ
  spkSamples : List ℚ
  lastResult : String
  deriving DecidableEq, Repr

/-- Opaque deterministic behavior of the external engines.  framesFn gives
decoder_->NumFramesDecoded() relative to the decoder start frame after
AdvanceDecoding has consumed the accumulated waveform; framesFinalFn is the
same after feature_pipeline_->InputFinished() plus the last AdvanceDecoding;
endpointFn models decoder_->EndpointDetected; extractFn models the whole
lattice retrieval / rescoring / extraction path of GetResult on a decoder with
at least one decoded frame; partialFn models the best-path extraction of
PartialResult on a decoder with at least one decoded frame. -/
structure Engine where
  framesFn : List ℚ → Nat
  framesFinalFn : List ℚ → Nat
  endpointFn : List ℚ → Bool
  extractFn : Session → String
  partialFn : Session → String

/-- InitState (kaldi_recognizer.cc lines 160-167) plus the constructor effects:
a fresh feature pipeline and decoder are live, no sample yet. -/
def newSession (freq : ℚ) (maxAlt : Int) (w : Bool) (spk : Bool) : Session :=
  { state := INITIALIZED
    sample_frequency := freq
    max_alternatives := maxAlt
    words := w
    hasSpkModel := spk
    frame_offset := 0
    samples_processed := 0
    samples_round_start := 0
    hasDecoder := true
    decoderFrames := 0
    decoderStart := 0
    pipelineSamples := []
    spkSamples := []
    lastResult := "" }

/-- StoreReturn (lines 749-753): store the result string and hand it back. -/
def storeReturn (s : Session) (res : String) : Session × String :=
  ({ s with lastResult := res }, res)

/-- The exact canonical empty payload of StoreEmptyReturn, single-best mode
(line 742). -/
def emptyTextJson : String := "\x7b\"text\": \"\"\x7d"

/-- The exact canonical empty payload of StoreEmptyReturn, N-best mode
(line 744). -/
def emptyAltJson : String :=
  "\x7b\"alternatives\" : [\x7b\"text\": \"\", \"confidence\" : 1.0\x7d] \x7d"

/-- StoreEmptyReturn (lines 739-746). -/
def storeEmptyReturn (s : Session) : Session × String :=
  if s.max_alternatives = 0 then
    storeReturn s emptyTextJson
  else
    storeReturn s emptyAltJson

/-- CleanUp (lines 189-225).  The silence tracker is replaced unconditionally
(not modeled, no observable state).  frame_offset_ absorbs NumFramesDecoded
when a decoder is live, then either the pipeline/decoder pair is destroyed and
rebuilt (zeroing the counters, samples_round_start absorbing
samples_processed) or the existing decoder is re-initialized at frame_offset_. -/
def cleanUp (s : Session) : Session :=
  let s1 := if s.hasDecoder then
              { s with frame_offset := s.frame_offset + s.decoderFrames }
            else s
  if s1.hasDecoder = false ∨ s1.state = FINALIZED ∨ 20000 < s1.frame_offset then
    { s1 with samples_round_start := s1.samples_round_start + s1.samples_processed
              samples_processed := 0
              frame_offset := 0
              hasDecoder := true
              decoderFrames := 0
              decoderStart := 0
              pipelineSamples := []
              spkSamples := if s1.hasSpkModel then [] else s1.spkSamples }
  else
    { s1 with decoderFrames := 0, decoderStart := s1.frame_offset }

/-- The chunk size of AcceptWaveform, line 296:
static_cast of sample_frequency_ * 0.2 to int. -/
def stepOf (freq : ℚ) : Nat := (Rat.floor (freq * (1 / 5))).toNat

/-- The chunking loop of AcceptWaveform (lines 297-302): successive Range
subvectors of length min step (dim - i).  Fuel-based recursion; the fuel
w.length is enough whenever step is at least 1 (with step = 0 the C loop does
not terminate either). -/
def chunkListAux (step : Nat) : Nat → List ℚ → List (List ℚ)
  | 0, _ => []
  | _, [] => []
  | fuel + 1, w => w.take step :: chunkListAux step fuel (w.drop step)

/-- All chunks of a waveform, in order. -/
def chunkList (step : Nat) (w : List ℚ) : List (List ℚ) :=
  chunkListAux step w.length w

/-- One iteration of the chunk loop body (lines 298-301): the chunk is fed to
the feature pipeline, silence weights are recomputed (no observable counter),
and AdvanceDecoding consumes everything that is ready. -/
def feedChunk (E : Engine) (s : Session) (c : List ℚ) : Session :=
  { s with pipelineSamples := s.pipelineSamples ++ c
           decoderFrames := E.framesFn (s.pipelineSamples ++ c) - s.decoderStart }

/-- AcceptWaveform(Vector) (lines 288-314), returning the updated session and
the endpoint flag. -/
def acceptWaveform (E : Engine) (s : Session) (w : List ℚ) : Session × Bool :=
  let s0 := if s.state = RUNNING ∨ s.state = INITIALIZED then s else cleanUp s
  let s1 := { s0 with state := RUNNING }
  let s2 := (chunkList (stepOf s1.sample_frequency) w).foldl (feedChunk E) s1
  let s3 := { s2 with samples_processed := s2.samples_processed + w.length }
  let s4 := if s3.hasSpkModel then { s3 with spkSamples := s3.spkSamples ++ w }
            else s3
  (s4, E.endpointFn s4.pipelineSamples)

/-- AcceptWaveform, session part only. -/
def acceptS (E : Engine) (s : Session) (w : List ℚ) : Session :=
  (acceptWaveform E s w).1

/-- GetResult (lines 604-658), session view: with no decoded frame the whole
extraction is skipped and the canonical empty payload is stored; otherwise the
lattice retrieval, rescoring and extraction run (opaque extractFn; the lattice
level of GetResult is modeled separately below for the rescoring claim). -/
def getResult (E : Engine) (s : Session) : Session × String :=
  if s.decoderFrames = 0 then
    storeEmptyReturn s
  else
    storeReturn s (E.extractFn s)

/-- PartialResult (lines 661-690).  The dump of the partial JSON object is
opaque (partialFn); only the out-of-RUNNING branch produces a constant. -/
def partialResult (E : Engine) (s : Session) : Session × String :=
  if s.state ≠ RUNNING then
    storeEmptyReturn s
  else
    storeReturn s (E.partialFn s)

/-- Result (lines 692-700): outside RUNNING the canonical empty payload;
otherwise FinalizeDecoding (no modeled counter), transition to ENDPOINT,
then GetResult. -/
def result (E : Engine) (s : Session) : Session × String :=
  if s.state ≠ RUNNING then
    storeEmptyReturn s
  else
    getResult E { s with state := ENDPOINT }

/-- InputFinished + UpdateSilenceWeights + the last AdvanceDecoding of
FinalResult (lines 708-710). -/
def finalAdvance (E : Engine) (s : Session) : Session :=
  { s with decoderFrames := E.framesFinalFn s.pipelineSamples - s.decoderStart }

/-- FinalResult (lines 702-728): outside RUNNING the canonical empty payload;
otherwise flush the pipeline, decode, finalize, transition to FINALIZED, run
GetResult, then eagerly release decoder, pipeline, silence tracker and speaker
feature extractor, and return the stored result. -/
def finalResult (E : Engine) (s : Session) : Session × String :=
  if s.state ≠ RUNNING then
    storeEmptyReturn s
  else
    let s1 := finalAdvance E s
    let s2 := (getResult E { s1 with state := FINALIZED }).1
    let s3 := { s2 with hasDecoder := false
                        decoderFrames := 0
                        decoderStart := 0
                        pipelineSamples := []
                        spkSamples := [] }
    (s3, s3.lastResult)

/-- Reset (lines 730-737): FinalizeDecoding when running (no modeled counter),
store the canonical empty payload, transition to ENDPOINT. -/
def reset (s : Session) : Session :=
  { (storeEmptyReturn s).1 with state := ENDPOINT }

/-- The public operations of a session, for the cross-operation invariant. -/
inductive Op
  | accept (w : List ℚ)
  | partialOp
  | resultOp
  | finalOp
  | resetOp
  | recycleOp

/-- Apply one operation to a session. -/
def applyOp (E : Engine) (s : Session) : Op → Session
  | Op.accept w => acceptS E s w
  | Op.partialOp => (partialResult E s).1
  | Op.resultOp => (result E s).1
  | Op.finalOp => (finalResult E s).1
  | Op.resetOp => reset s
  | Op.recycleOp => cleanUp s

/-- Run a sequence of operations. -/
def runOps (E : Engine) (s : Session) (ops : List Op) : Session :=
  ops.foldl (applyOp E) s

/-- A word entry of the MBR (single-best) result, MbrResult lines 434-443:
word id, absolute start and end time, confidence. -/
structure MbrWord where
  word : Nat
  start : ℚ
  stop : ℚ
  conf : ℚ
  deriving DecidableEq, Repr

/-- A word entry of an N-best alternative, NbestResult lines 581-590:
word id, absolute start and end time (no confidence field). -/
structure NbestWord where
  word : Nat
  start : ℚ
  stop : ℚ
  deriving DecidableEq, Repr

/-- The word-entry loop of MbrResult (lines 434-443) over the zipped MBR
outputs (word id, (start frame, end frame), confidence); entries are emitted
only when word output is enabled.  Timestamps exactly as written on lines
439-440. -/
def mbrWordEntries (srs : Nat) (freq : ℚ) (fo : Nat) (wordsFlag : Bool)
    (items : List (Nat × (ℚ × ℚ) × ℚ)) : List MbrWord :=
  if wordsFlag then
    items.map (fun it =>
      { word := it.1
        start := (srs : ℚ) / freq + ((fo : ℚ) + it.2.1.1) * (3 / 100)
        stop := (srs : ℚ) / freq + ((fo : ℚ) + it.2.1.2) * (3 / 100)
        conf := it.2.2 })
  else []

/-- The word-entry loop of NbestResult (lines 581-590) over the zipped
alignment outputs (word id, begin frame, length); epsilon words (id 0) are
skipped; entries are emitted only when word output is enabled.  Timestamps
exactly as written on lines 587-588. -/
def nbestWordEntries (srs : Nat) (freq : ℚ) (fo : Nat) (wordsFlag : Bool)
    (items : List (Nat × Nat × Nat)) : List NbestWord :=
  if wordsFlag then
    (items.filter (fun it => it.1 ≠ 0)).map (fun it =>
      { word := it.1
        start := (srs : ℚ) / freq + ((fo : ℚ) + (it.2.1 : ℚ)) * (3 / 100)
        stop := (srs : ℚ) / freq + ((fo : ℚ) + (it.2.1 : ℚ) + (it.2.2 : ℚ)) * (3 / 100) })
  else []

/-- The absolute-timestamp formula of the claim:
samples_round_start / sampleRate + (frame_offset + relativeFrame) * 0.03. -/
def tsFormula (srs : Nat) (freq : ℚ) (fo : Nat) (rel : ℚ) : ℚ :=
  (srs : ℚ) / freq + ((fo : ℚ) + rel) * (3 / 100)

/-- A CompactLattice weight: graph cost, acoustic cost and the transition-id
string.  Weight::Zero (infinite costs) is represented as the none case of
Option CWeight. -/
structure CWeight where
  g : ℚ
  a : ℚ
  s : List Nat
  deriving DecidableEq, Repr

/-- Semiring Times on CompactLattice weights: costs add, strings concatenate. -/
def cwTimes (x y : CWeight) : CWeight :=
  { g := x.g + y.g, a := x.a + y.a, s := x.s ++ y.s }

/-- Weight::One. -/
def cwOne : CWeight := { g := 0, a := 0, s := [] }

/-- A CompactLattice arc (acceptor: ilabel = olabel). -/
structure CArc where
  ilabel : Nat
  weight : CWeight
  nextstate : Nat

/-- A CompactLattice: an optional start state (none models kNoStateId), the
arcs and the final weight of each state, and a state-count bound used as fuel
for the alignment walk (the source loop relies on lattice acyclicity; on a
cyclic lattice it would not terminate, the model returns failure when the
fuel runs out). -/
structure CLat where
  numStates : Nat
  start : Option Nat
  arcsOf : Nat → List CArc
  finalOf : Nat → Option CWeight

/-- The outputs of CompactLatticeToWordAlignmentWeight: the success flag, the
accumulated words / begin times / lengths (left as already pushed when the
walk fails, exactly as the source leaves the output vectors), and the total
weight (none models the Weight::Zero it is initialized to on lines 495-498). -/
structure AlignResult where
  ok : Bool
  words : List Nat
  begins : List Nat
  lens : List Nat
  tot : Option CWeight

/-- The while(1) walk of CompactLatticeToWordAlignmentWeight (lines 508-540):
a final state must have no arcs, a non-final state exactly one. -/
def walkAux (clat : CLat) : Nat → Nat → Nat → CWeight →
    List Nat → List Nat → List Nat → AlignResult
  | 0, _, _, _, ws, bs, ls => ⟨false, ws, bs, ls, none⟩
  | fuel + 1, st, curTime, tw, ws, bs, ls =>
    match clat.finalOf st with
    | some fw =>
      if (clat.arcsOf st).length ≠ 0 then ⟨false, ws, bs, ls, none⟩
      else ⟨true, ws, bs, ls, some (cwTimes fw tw)⟩
    | none =>
      match clat.arcsOf st with
      | [arc] =>
        walkAux clat fuel arc.nextstate (curTime + arc.weight.s.length)
          (cwTimes arc.weight tw)
          (ws ++ [arc.ilabel]) (bs ++ [curTime]) (ls ++ [arc.weight.s.length])
      | _ => ⟨false, ws, bs, ls, none⟩

/-- CompactLatticeToWordAlignmentWeight (lines 483-541): clears the outputs,
fails on an empty lattice (no start state), otherwise walks the path. -/
def wordAlign (clat : CLat) : AlignResult :=
  match clat.start with
  | none => ⟨false, [], [], [], none⟩
  | some st => walkAux clat (clat.numStates + 1) st 0 cwOne [] [] []

/-- One alternative of the N-best result: the rendered word-id sequence, the
confidence (none models the minus-infinity produced from Weight::Zero when
alignment failed), and the word entries. -/
structure NbestEntry where
  text : List Nat
  confidence : Option ℚ
  result : List NbestWord

/-- The per-path body of the NbestResult loop (lines 556-598): epsilon
removal, conversion and optional word alignment are collapsed into the opaque
align parameter; then the alignment walk runs, the confidence is the negated
sum of the two components of the total weight, and the entry is built.  The
boolean returned by the alignment walk is not consulted. -/
def nbestEntryOf (srs : Nat) (freq : ℚ) (fo : Nat) (wordsFlag : Bool)
    (align : CLat → CLat) (plat : CLat) : NbestEntry :=
  let ar := wordAlign (align plat)
  { text := (ar.words.filter (fun w => w ≠ 0))
    confidence := match ar.tot with
      | some w => some (-(w.g + w.a))
      | none => none
    result := nbestWordEntries srs freq fo wordsFlag
      (ar.words.zip (ar.begins.zip ar.lens)) }

/-- The full alternatives list of NbestResult: one entry is appended per
extracted path (line 598), unconditionally. -/
def nbestAlternatives (srs : Nat) (freq : ℚ) (fo : Nat) (wordsFlag : Bool)
    (align : CLat → CLat) (paths : List CLat) : List NbestEntry :=
  paths.map (nbestEntryOf srs freq fo wordsFlag align)

/-- A lattice with no states at all (Start() == kNoStateId). -/
def emptyCLat : CLat :=
  { numStates := 0, start := none, arcsOf := fun _ => [], finalOf := fun _ => none }

/-- The collected non-silence frame count of GetSpkVector (lines 357-375):
frames i below num_frames whose i / 3 occurs in the non-silence frame list. -/
def collectedSpkFrames (nonsilence : List Nat) (numFrames : Nat) : Nat :=
  ((List.range numFrames).filter (fun i => nonsilence.contains (i / 3))).length

/-- GetSpkVector success (lines 377-380, MIN_SPK_FEATS = 50): the extraction
is aborted exactly when fewer than 50 non-silence frames were collected from
the window starting at frame_offset * 3 of the speaker feature stream. -/
def getSpkVectorOk (nonsilence : List Nat) (spkFramesReady frameOffset : Nat) : Bool :=
  50 ≤ collectedSpkFrames nonsilence (spkFramesReady - frameOffset * 3)

/-- The speaker block attached to a result: the frame count is observable
(spk_frames); the embedding vector and the PLDA scores are opaque. -/
structure SpkBlock where
  frames : Nat
  deriving DecidableEq, Repr

/-- The speaker block of MbrResult (lines 452-478): present exactly when a
speaker model is attached and GetSpkVector succeeds. -/
def mbrSpkBlock (hasSpk : Bool) (nonsilence : List Nat)
    (spkFramesReady frameOffset : Nat) : Option SpkBlock :=
  if hasSpk && getSpkVectorOk nonsilence spkFramesReady frameOffset then
    some { frames := collectedSpkFrames nonsilence (spkFramesReady - frameOffset * 3) }
  else none

/-- The speaker block of a full result extraction: GetResult (lines 652-656)
dispatches to MbrResult when max_alternatives is 0 and to NbestResult
otherwise; NbestResult (lines 544-602) contains no speaker code, so no
speaker block is ever attached in N-best mode. -/
def resultSpkBlock (maxAlt : Int) (hasSpk : Bool) (nonsilence : List Nat)
    (spkFramesReady frameOffset : Nat) : Option SpkBlock :=
  if maxAlt = 0 then mbrSpkBlock hasSpk nonsilence spkFramesReady frameOffset
  else none

/-- The secondary-LM configuration of the Model: none, recurrent
(rnnlm_lm_fst_) or static higher-order (std_lm_fst_). -/
inductive LmMode
  | noLm
  | rnnlm
  | stdLm
  deriving DecidableEq, Repr

/-- A lattice viewed as its multiset of weights (graph cost, acoustic cost);
enough structure to express what ScaleLattice does to every weight. -/
def WLat : Type := List (ℚ × ℚ)

/-- fst::ScaleLattice with a 2x2 scale matrix: every weight pair is mapped
through the matrix. -/
def scaleLattice (s00 s01 s10 s11 : ℚ) (l : WLat) : WLat :=
  l.map (fun w => (s00 * w.1 + s01 * w.2, s10 * w.1 + s11 * w.2))

/-- The two opaque second-pass rescoring paths of GetResult (lines 614-645):
the pruned composition against the interpolated recurrent LM, and the static
higher-order LM composition chain. -/
structure RescoreFns where
  rnnlmRescore : WLat → WLat
  stdRescore : WLat → WLat

/-- The lattice section of GetResult (lines 610-650): rlat is produced by the
branch selected by the attached secondary LM, then
ScaleLattice(GraphLatticeScale(0.9)) is applied on line 650, after all
branches. -/
def getResultRlat (R : RescoreFns) (mode : LmMode) (clat : WLat) : WLat :=
  let rlat := match mode with
    | LmMode.noLm => clat
    | LmMode.rnnlm => R.rnnlmRescore clat
    | LmMode.stdLm => R.stdRescore clat
  scaleLattice (9 / 10) 0 0 1 rlat

/-- The rescored lattice of each path, before any scaling (the claim side). -/
def rescoredOf (R : RescoreFns) (mode : LmMode) (clat : WLat) : WLat :=
  match mode with
  | LmMode.noLm => clat
  | LmMode.rnnlm => R.rnnlmRescore clat
  | LmMode.stdLm => R.stdRescore clat

/-- The extraction dispatch of GetResult (lines 652-656). -/
def getResultDispatch (R : RescoreFns) (mode : LmMode) (maxAlt : Int)
    (mbrF nbestF : WLat → String) (clat : WLat) : String :=
  if maxAlt = 0 then mbrF (getResultRlat R mode clat)
  else nbestF (getResultRlat R mode clat)

/-- The graph assets of a Model: the precomputed full graph hclg_fst_, the
half graph hcl_fst_ and the grammar half g_fst_, each possibly absent.
Graphs are abstract handles (naturals). -/
structure GrammarModel where
  hclg : Option Nat
  hcl : Option Nat
  g : Option Nat
  deriving DecidableEq, Repr

/-- A JSON grammar entry: a whitespace-tokenized sentence (tokenization by the
getline loop on lines 81-90 is abstracted to a ready token list) or a
non-string value, which triggers KALDI_ERR on line 77. -/
inductive GVal
  | str (tokens : List String)
  | nonstr
  deriving DecidableEq, Repr

/-- The outcome of a recognizer constructor: a live session with the chosen
decoding graph, a KALDI_ERR abort, or the dereference of decode_fst_ while it
is still the null pointer it was initialized to (the destructor on lines
140-158 deletes decode_fst_, g_fst_ and lm_fst_ unconditionally, so these
members must be null-initialized in the header). -/
inductive CtorOutcome
  | ok (graph : Nat)
  | fatal
  | nullGraphDeref
  deriving DecidableEq, Repr

/-- A constructor outcome together with the warnings it logged. -/
structure CtorResult where
  outcome : CtorOutcome
  warnedEmptyGrammar : Bool
  warnedNoRuntimeGraphs : Bool
  deriving DecidableEq, Repr

/-- The external collaborators of the grammar constructor: the language-model
estimator (lines 72-94), lookahead composition (line 96) and the word symbol
table lookup (line 84). -/
structure GrammarFns where
  estimateG : List (List Nat) → Nat
  compose : Nat → Nat → Nat
  findSym : String → Option Nat

/-- The sentence loop of the grammar constructor (lines 73-92): a non-string
entry aborts with KALDI_ERR; tokens missing from the vocabulary are dropped
with a warning. -/
def sentencesOf (findSym : String → Option Nat) :
    List GVal → Option (List (List Nat))
  | [] => some []
  | GVal.str toks :: rest =>
    (sentencesOf findSym rest).map (fun r => toks.filterMap findSym :: r)
  | GVal.nonstr :: _ => none

/-- The decoder construction shared by all constructors (lines 102-106):
model_->hclg_fst_ ? *model_->hclg_fst_ : *decode_fst_. -/
def finishCtor (m : GrammarModel) (decodeFst : Option Nat)
    (w1 w2 : Bool) : CtorResult :=
  match m.hclg with
  | some g0 => ⟨CtorOutcome.ok g0, w1, w2⟩
  | none =>
    match decodeFst with
    | some d => ⟨CtorOutcome.ok d, w1, w2⟩
    | none => ⟨CtorOutcome.nullGraphDeref, w1, w2⟩

/-- The grammar-constrained constructor (lines 51-110).  With hcl_fst_
present and an empty grammar array only KALDI_WARN fires (line 63) and no
decode graph is built; without hcl_fst_ the runtime-graph warning fires
(line 99) and no decode graph is built. -/
def grammarRecognizerCtor (F : GrammarFns) (m : GrammarModel)
    (grammar : List GVal) : CtorResult :=
  match m.hcl with
  | some hcl =>
    if grammar.length ≤ 0 then
      finishCtor m none true false
    else
      match sentencesOf F.findSym grammar with
      | none => ⟨CtorOutcome.fatal, false, false⟩
      | some sents => finishCtor m (some (F.compose hcl (F.estimateG sents))) false false
  | none => finishCtor m none false true

/-- The plain constructor (lines 26-49): composes the half graphs when no
precomputed full graph exists, KALDI_ERR when neither is possible. -/
def plainCtor (F : GrammarFns) (m : GrammarModel) : CtorOutcome :=
  match m.hclg with
  | some g0 => CtorOutcome.ok g0
  | none =>
    match m.hcl, m.g with
    | some h, some g => CtorOutcome.ok (F.compose h g)
    | _, _ => CtorOutcome.fatal

/-- A concrete engine used by the witnesses. -/
def engine0 : Engine :=
  { framesFn := fun l => l.length
    framesFinalFn := fun l => l.length
    endpointFn := fun _ => false
    extractFn := fun _ => "r"
    partialFn := fun _ => "p" }

/-- A concrete fresh session at 16 kHz, single-best mode, for the witnesses. -/
def session0 : Session := newSession 16000 0 false false

/-- A concrete session in N-best mode that is not RUNNING. -/
def session1 : Session := newSession 16000 3 true false

/-- A concrete running session with no decoded frame. -/
def session2 : Session := { session0 with state := RUNNING }

/-- A concrete running session in N-best mode with a speaker model. -/
def session3 : Session := { newSession 16000 2 true true with state := RUNNING }

/-- Concrete waveform buffers for the framing-invariance witness. -/
def buffers0 : List (List ℚ) := [[1], [2, 3]]

/-- A running session that has exactly 20000 frames decoded since the last
reset, the Recycle boundary case. -/
def sessionBoundary : Session :=
  { newSession 16000 0 false false with state := RUNNING, frame_offset := 20000 }

/-- Concrete grammar-constructor collaborators for the witnesses. -/
def grammarFns0 : GrammarFns :=
  { estimateG := fun _ => 0
    compose := fun a b => 100 * a + b
    findSym := fun _ => none }

/-- A model with only the half graphs (the runtime-graph configuration the
grammar constructor exists for): no precomputed full graph. -/
def model0 : GrammarModel := { hclg := none, hcl := some 7, g := some 8 }

/-- A model with a precomputed full graph and the half graphs. -/
def model1 : GrammarModel := { hclg := some 5, hcl := some 7, g := some 8 }

/-- A sequence of AcceptWaveform calls, one per buffer. -/
def runAccepts (E : Engine) (s : Session) (ws : List (List ℚ)) : Session :=
  ws.foldl (acceptS E) s

/-- Frames decoded since the last hard reset at CleanUp time: the accumulated
frame_offset_ plus the live decoder frame count (line 194-195). -/
def framesSinceReset (s : Session) : Nat :=
  s.frame_offset + (if s.hasDecoder then s.decoderFrames else 0)

/-- The hard-reset condition of CleanUp as the claim states it. -/
def recycleCond (s : Session) : Prop :=
  s.hasDecoder = false ∨ s.state = FINALIZED ∨ 20000 < framesSinceReset s

instance (s : Session) : Decidable (recycleCond s) := by
  unfold recycleCond; infer_instance

/-- The claimed effect of a hard reset: samples_round_start absorbs
samples_processed, both samples_processed and frame_offset are zeroed, and the
pipeline/decoder pair (and the speaker feature extractor when a speaker model
is attached) is rebuilt from scratch. -/
def hardResetSpec (s : Session) : Session :=
  { s with samples_round_start := s.samples_round_start + s.samples_processed
           samples_processed := 0
           frame_offset := 0
           hasDecoder := true
           decoderFrames := 0
           decoderStart := 0
           pipelineSamples := []
           spkSamples := if s.hasSpkModel then [] else s.spkSamples }

/-- The claimed effect of the soft path: the existing engine resumes from the
updated frame_offset, no counter is reset. -/
def softReinitSpec (s : Session) : Session :=
  { s with frame_offset := framesSinceReset s
           decoderFrames := 0
           decoderStart := framesSinceReset s }

/-- C3: the Recycle step hard-resets exactly when the engine is absent, the
state is FINALIZED, or more than 20000 frames were decoded since the last
reset; otherwise it reinitializes the existing engine at frame_offset. -/
theorem c3_recycle_hard_reset_iff (s : Session) :
    cleanUp s = if recycleCond s then hardResetSpec s else softReinitSpec s := by
  unfold cleanUp recycleCond framesSinceReset hardResetSpec softReinitSpec
  by_cases hd : s.hasDecoder = true
  · simp only [hd, if_true]
    by_cases hf : s.state = FINALIZED
    · simp [hf]
    · by_cases hn : 20000 < s.frame_offset + s.decoderFrames
      · simp [hd, hf, hn]
      · simp [hd, hf, hn, framesSinceReset]
  · have hd' : s.hasDecoder = false := by simpa using hd
    simp [hd']

theorem storeReturn_fst_srs (s : Session) (r : String) :
    ((storeReturn s r).1).samples_round_start = s.samples_round_start := rfl

theorem storeEmptyReturn_fst_srs (s : Session) :
    ((storeEmptyReturn s).1).samples_round_start = s.samples_round_start := by
  unfold storeEmptyReturn
  split <;> rfl

theorem getResult_fst_srs (E : Engine) (s : Session) :
    ((getResult E s).1).samples_round_start = s.samples_round_start := by
  unfold getResult
  split
  · exact storeEmptyReturn_fst_srs s
  · rfl

theorem cleanUp_srs_le (s : Session) :
    s.samples_round_start ≤ (cleanUp s).samples_round_start := by
  simp only [cleanUp]
  split
  · split <;> simp
  · split <;> simp

theorem foldFeed_srs (E : Engine) :
    ∀ (cs : List (List ℚ)) (s : Session),
      (cs.foldl (feedChunk E) s).samples_round_start = s.samples_round_start := by
  intro cs
  induction cs with
  | nil => intro s; rfl
  | cons c cs ih => intro s; simpa using ih (feedChunk E s c)

theorem spkIte_srs (c : Prop) [Decidable c] (x : Session) (w : List ℚ) :
    ((if c then { x with spkSamples := x.spkSamples ++ w } else x) :
      Session).samples_round_start = x.samples_round_start := by
  split <;> rfl

theorem acceptS_srs_eq (E : Engine) (s : Session) (w : List ℚ) :
    (acceptS E s w).samples_round_start =
      ((if s.state = RUNNING ∨ s.state = INITIALIZED then s else cleanUp s) :
        Session).samples_round_start := by
  by_cases h : s.state = RUNNING ∨ s.state = INITIALIZED
  · simp [acceptS, acceptWaveform, h, foldFeed_srs]
    try split <;> rfl
  · simp [acceptS, acceptWaveform, h, foldFeed_srs]
    try split <;> rfl

theorem acceptS_srs_le (E : Engine) (s : Session) (w : List ℚ) :
    s.samples_round_start ≤ (acceptS E s w).samples_round_start := by
  rw [acceptS_srs_eq]
  split
  · exact le_rfl
  · exact cleanUp_srs_le s

theorem partialResult_fst_srs (E : Engine) (s : Session) :
    ((partialResult E s).1).samples_round_start = s.samples_round_start := by
  unfold partialResult
  split
  · exact storeEmptyReturn_fst_srs s
  · rfl

theorem result_fst_srs (E : Engine) (s : Session) :
    ((result E s).1).samples_round_start = s.samples_round_start := by
  unfold result
  split
  · exact storeEmptyReturn_fst_srs s
  · exact getResult_fst_srs E _

theorem finalResult_fst_srs (E : Engine) (s : Session) :
    ((finalResult E s).1).samples_round_start = s.samples_round_start := by
  unfold finalResult
  split
  · exact storeEmptyReturn_fst_srs s
  · simpa using getResult_fst_srs E { finalAdvance E s with state := FINALIZED }

theorem reset_srs (s : Session) :
    (reset s).samples_round_start = s.samples_round_start := by
  unfold reset
  simpa using storeEmptyReturn_fst_srs s

theorem applyOp_srs_le (E : Engine) (s : Session) (op : Op) :
    s.samples_round_start ≤ (applyOp E s op).samples_round_start := by
  cases op with
  | accept w => exact acceptS_srs_le E s w
  | partialOp => exact le_of_eq (partialResult_fst_srs E s).symm
  | resultOp => exact le_of_eq (result_fst_srs E s).symm
  | finalOp => exact le_of_eq (finalResult_fst_srs E s).symm
  | resetOp => exact le_of_eq (reset_srs s).symm
  | recycleOp => exact cleanUp_srs_le s

/-- C8: samples_round_start is monotonically non-decreasing across any
sequence of session operations (AcceptWaveform, PartialResult, Result,
FinalResult, Reset and the internal Recycle), from any session state. -/
theorem c8_srs_monotone (E : Engine) (s : Session) (ops1 ops2 : List Op) :
    (runOps E s ops1).samples_round_start ≤
      (runOps E s (ops1 ++ ops2)).samples_round_start := by
  unfold runOps
  rw [List.foldl_append]
  generalize List.foldl (applyOp E) s ops1 = t
  induction ops2 generalizing t with
  | nil => exact le_rfl
  | cons op ops ih =>
    exact le_trans (le_trans (applyOp_srs_le E t op) (ih (applyOp E t op))) le_rfl

theorem storeEmptyReturn_snd (s : Session) :
    (storeEmptyReturn s).2 =
      (if s.max_alternatives = 0 then emptyTextJson else emptyAltJson) := by
  unfold storeEmptyReturn storeReturn
  split <;> rfl

theorem storeEmptyReturn_fst_last (s : Session) :
    ((storeEmptyReturn s).1).lastResult =
      (if s.max_alternatives = 0 then emptyTextJson else emptyAltJson) := by
  unfold storeEmptyReturn storeReturn
  split <;> rfl

theorem partialResult_not_running (E : Engine) (s : Session)
    (h : s.state ≠ RUNNING) : partialResult E s = storeEmptyReturn s := by
  unfold partialResult
  exact if_pos h

theorem result_not_running (E : Engine) (s : Session)
    (h : s.state ≠ RUNNING) : result E s = storeEmptyReturn s := by
  unfold result
  exact if_pos h

theorem finalResult_not_running (E : Engine) (s : Session)
    (h : s.state ≠ RUNNING) : finalResult E s = storeEmptyReturn s := by
  unfold finalResult
  exact if_pos h

theorem result_running (E : Engine) (s : Session) (h : s.state = RUNNING) :
    result E s = getResult E { s with state := ENDPOINT } := by
  unfold result
  rw [if_neg (by simp [h])]

theorem finalResult_running_snd (E : Engine) (s : Session)
    (h : s.state = RUNNING) :
    (finalResult E s).2 =
      ((getResult E { finalAdvance E s with state := FINALIZED }).1).lastResult := by
  unfold finalResult
  rw [if_neg (by simp [h])]

theorem getResult_zero (E : Engine) (s : Session) (hf : s.decoderFrames = 0) :
    getResult E s = storeEmptyReturn s := by
  unfold getResult
  exact if_pos hf

/-- C2: outside RUNNING, PartialResult, Result and FinalResult each return
exactly the canonical empty payload of the configured alternatives mode. -/
theorem c2_empty_payload_outside_running (E : Engine) (s : Session)
    (h : s.state ≠ RUNNING) :
    (partialResult E s).2 =
        (if s.max_alternatives = 0 then emptyTextJson else emptyAltJson)
    ∧ (result E s).2 =
        (if s.max_alternatives = 0 then emptyTextJson else emptyAltJson)
    ∧ (finalResult E s).2 =
        (if s.max_alternatives = 0 then emptyTextJson else emptyAltJson) := by
  refine ⟨?_, ?_, ?_⟩
  · rw [partialResult_not_running E s h, storeEmptyReturn_snd]
  · rw [result_not_running E s h, storeEmptyReturn_snd]
  · rw [finalResult_not_running E s h, storeEmptyReturn_snd]

theorem c2_witness :
    session1.state ≠ RUNNING
    ∧ ((partialResult engine0 session1).2 =
        (if session1.max_alternatives = 0 then emptyTextJson else emptyAltJson)
    ∧ (result engine0 session1).2 =
        (if session1.max_alternatives = 0 then emptyTextJson else emptyAltJson)
    ∧ (finalResult engine0 session1).2 =
        (if session1.max_alternatives = 0 then emptyTextJson else emptyAltJson)) :=
  ⟨by decide, c2_empty_payload_outside_running engine0 session1 (by decide)⟩

/-- C10: while RUNNING with a zero decoded-frame count at extraction time,
Result and FinalResult skip the extraction and return the canonical empty
payload of the configured alternatives mode. -/
theorem c10_zero_frames_empty (E : Engine) (s : Session)
    (h : s.state = RUNNING) :
    (s.decoderFrames = 0 →
      (result E s).2 =
        (if s.max_alternatives = 0 then emptyTextJson else emptyAltJson))
    ∧ ((finalAdvance E s).decoderFrames = 0 →
      (finalResult E s).2 =
        (if s.max_alternatives = 0 then emptyTextJson else emptyAltJson)) := by
  constructor
  · intro hf
    rw [result_running E s h,
      getResult_zero E { s with state := ENDPOINT } hf, storeEmptyReturn_snd]
  · intro hf
    rw [finalResult_running_snd E s h,
      getResult_zero E { finalAdvance E s with state := FINALIZED } hf,
      storeEmptyReturn_fst_last]
    rfl

theorem c10_witness :
    session2.state = RUNNING
    ∧ session2.decoderFrames = 0
    ∧ (finalAdvance engine0 session2).decoderFrames = 0
    ∧ (result engine0 session2).2 =
        (if session2.max_alternatives = 0 then emptyTextJson else emptyAltJson)
    ∧ (finalResult engine0 session2).2 =
        (if session2.max_alternatives = 0 then emptyTextJson else emptyAltJson) :=
  ⟨by decide, by decide, by decide,
    (c10_zero_frames_empty engine0 session2 (by decide)).1 (by decide),
    (c10_zero_frames_empty engine0 session2 (by decide)).2 (by decide)⟩

theorem chunkListAux_join (step : Nat) (hs : 1 ≤ step) :
    ∀ (fuel : Nat) (w : List ℚ), w.length ≤ fuel →
      (chunkListAux step fuel w).flatten = w := by
  intro fuel
  induction fuel with
  | zero =>
    intro w hw
    have hnil : w = [] := List.eq_nil_of_length_eq_zero (Nat.le_zero.mp hw)
    subst hnil
    rfl
  | succ n ih =>
    intro w hw
    cases w with
    | nil => rfl
    | cons a t =>
      have hlen : ((a :: t).drop step).length ≤ n := by
        simp only [List.length_drop, List.length_cons]
        simp only [List.length_cons] at hw
        omega
      show ((a :: t).take step :: chunkListAux step n ((a :: t).drop step)).flatten
        = a :: t
      rw [List.flatten_cons, ih ((a :: t).drop step) hlen, List.take_append_drop]

theorem chunkList_join (step : Nat) (hs : 1 ≤ step) (w : List ℚ) :
    (chunkList step w).flatten = w :=
  chunkListAux_join step hs w.length w le_rfl

theorem chunkList_eq_nil (step : Nat) (w : List ℚ) :
    chunkList step w = [] ↔ w = [] := by
  cases w with
  | nil => simp [chunkList, chunkListAux]
  | cons a t => simp [chunkList, chunkListAux]

theorem foldFeed_eq (E : Engine) :
    ∀ (cs : List (List ℚ)) (s : Session),
      cs.foldl (feedChunk E) s =
        { s with
            pipelineSamples := s.pipelineSamples ++ cs.flatten
            decoderFrames :=
              if cs = [] then s.decoderFrames
              else E.framesFn (s.pipelineSamples ++ cs.flatten) - s.decoderStart } := by
  intro cs
  induction cs with
  | nil => intro s; simp
  | cons c cs ih =>
    intro s
    rw [List.foldl_cons, ih (feedChunk E s c)]
    by_cases hcs : cs = []
    · subst hcs
      simp [feedChunk]
    · simp [feedChunk, hcs, List.append_assoc]

theorem acceptS_eq (E : Engine) (s : Session) (w : List ℚ)
    (h1 : 1 ≤ stepOf s.sample_frequency)
    (h2 : s.state = RUNNING ∨ s.state = INITIALIZED) :
    acceptS E s w =
      { s with
          state := RUNNING
          pipelineSamples := s.pipelineSamples ++ w
          decoderFrames :=
            if w = [] then s.decoderFrames
            else E.framesFn (s.pipelineSamples ++ w) - s.decoderStart
          samples_processed := s.samples_processed + w.length
          spkSamples := if s.hasSpkModel then s.spkSamples ++ w
            else s.spkSamples } := by
  simp only [acceptS, acceptWaveform]
  rw [if_pos h2, foldFeed_eq E]
  by_cases hspk : s.hasSpkModel = true
  · simp [hspk, chunkList_join _ h1, chunkList_eq_nil]
  · simp [hspk, chunkList_join _ h1, chunkList_eq_nil]

theorem acceptS_comp (E : Engine) (s : Session) (w1 w2 : List ℚ)
    (h1 : 1 ≤ stepOf s.sample_frequency)
    (h2 : s.state = RUNNING ∨ s.state = INITIALIZED) :
    acceptS E (acceptS E s w1) w2 = acceptS E s (w1 ++ w2) := by
  have hfreq : (acceptS E s w1).sample_frequency = s.sample_frequency := by
    rw [acceptS_eq E s w1 h1 h2]
  have hst : (acceptS E s w1).state = RUNNING := by
    rw [acceptS_eq E s w1 h1 h2]
  rw [acceptS_eq E (acceptS E s w1) w2 (by rw [hfreq]; exact h1) (Or.inl hst)]
  rw [acceptS_eq E s w1 h1 h2]
  rw [acceptS_eq E s (w1 ++ w2) h1 h2]
  by_cases hw1 : w1 = []
  · subst hw1
    by_cases hspk : s.hasSpkModel = true <;> simp [hspk]
  · by_cases hw2 : w2 = []
    · subst hw2
      by_cases hspk : s.hasSpkModel = true <;> simp [hspk, hw1]
    · by_cases hspk : s.hasSpkModel = true <;>
        simp [hspk, hw1, hw2, List.append_assoc, Nat.add_assoc]

theorem runAccepts_eq (E : Engine) :
    ∀ (ws : List (List ℚ)) (s : Session), ws ≠ [] →
      1 ≤ stepOf s.sample_frequency →
      (s.state = RUNNING ∨ s.state = INITIALIZED) →
      runAccepts E s ws = acceptS E s ws.flatten := by
  intro ws
  induction ws with
  | nil => intro s hne _ _; exact absurd rfl hne
  | cons w ws ih =>
    intro s _ h1 h2
    by_cases hws : ws = []
    · subst hws
      show acceptS E s w = acceptS E s ([w].flatten)
      simp
    · have hstep : runAccepts E s (w :: ws) = runAccepts E (acceptS E s w) ws :=
        rfl
      have hfreq : (acceptS E s w).sample_frequency = s.sample_frequency := by
        rw [acceptS_eq E s w h1 h2]
      have hst : (acceptS E s w).state = RUNNING := by
        rw [acceptS_eq E s w h1 h2]
      rw [hstep, ih (acceptS E s w) hws (by rw [hfreq]; exact h1) (Or.inl hst)]
      rw [acceptS_comp E s w ws.flatten h1 h2]
      rfl

/-- C1: splitting a waveform into arbitrary buffers across repeated
AcceptWaveform calls yields the same FinalResult transcript as a single
AcceptWaveform call with the concatenated waveform, provided the chunk
quantum is positive and no recycle boundary is crossed (the session starts in
RUNNING or INITIALIZED, so CleanUp never runs). -/
theorem c1_framing_invariance (E : Engine) (s : Session) (ws : List (List ℚ))
    (h1 : 1 ≤ stepOf s.sample_frequency)
    (h2 : s.state = RUNNING ∨ s.state = INITIALIZED)
    (h3 : ws ≠ []) :
    (finalResult E (runAccepts E s ws)).2 =
      (finalResult E (acceptS E s ws.flatten)).2 := by
  rw [runAccepts_eq E ws s h3 h1 h2]

theorem stepOf_16000 : stepOf 16000 = 3200 := by
  have h : (16000 : ℚ) * (1 / 5) = 3200 := by norm_num
  rw [stepOf, h]
  decide

theorem c1_witness :
    1 ≤ stepOf session0.sample_frequency
    ∧ (session0.state = RUNNING ∨ session0.state = INITIALIZED)
    ∧ buffers0 ≠ []
    ∧ (finalResult engine0 (runAccepts engine0 session0 buffers0)).2 =
        (finalResult engine0 (acceptS engine0 session0 buffers0.flatten)).2 :=
  have hstep : 1 ≤ stepOf session0.sample_frequency := by
    show 1 ≤ stepOf 16000
    rw [stepOf_16000]
    norm_num
  ⟨hstep, Or.inr rfl, by decide,
    c1_framing_invariance engine0 session0 buffers0 hstep (Or.inr rfl)
      (by decide)⟩

/-- C4: in both extraction modes every emitted word entry carries absolute
timestamps given by the single formula
samples_round_start / sampleRate + (frame_offset + relativeFrame) * 0.03,
with the fixed 30 ms per-frame constant; the MBR entries use the MBR start and
end frame times, the N-best entries use begin and begin + length. -/
theorem c4_timestamp_formula (srs : Nat) (freq : ℚ) (fo : Nat)
    (mitems : List (Nat × (ℚ × ℚ) × ℚ)) (nitems : List (Nat × Nat × Nat)) :
    mbrWordEntries srs freq fo true mitems =
      mitems.map (fun it =>
        { word := it.1
          start := tsFormula srs freq fo it.2.1.1
          stop := tsFormula srs freq fo it.2.1.2
          conf := it.2.2 })
    ∧ nbestWordEntries srs freq fo true nitems =
      (nitems.filter (fun it => it.1 ≠ 0)).map (fun it =>
        { word := it.1
          start := tsFormula srs freq fo (it.2.1 : ℚ)
          stop := tsFormula srs freq fo ((it.2.1 : ℚ) + (it.2.2 : ℚ)) }) := by
  constructor
  · simp [mbrWordEntries, tsFormula]
  · simp [nbestWordEntries, tsFormula, add_assoc]

/-- C5 counterexample: a path lattice that is empty (no start state) makes the
alignment helper warn and return failure, yet NbestResult still appends an
entry for it: the alternatives list has one entry, not zero. -/
theorem c5_counterexample :
    emptyCLat.start = none
    ∧ (wordAlign emptyCLat).ok = false
    ∧ (nbestAlternatives 0 1 0 true (fun p => p) [emptyCLat]).length = 1 :=
  ⟨rfl, rfl, rfl⟩

/-- C5 amended: a non-linear or empty path makes the alignment helper warn and
return failure, but NbestResult ignores the returned flag: every extracted
path contributes exactly one entry to the alternatives list, failed or not. -/
theorem c5_every_path_appended (srs : Nat) (freq : ℚ) (fo : Nat)
    (wordsFlag : Bool) (align : CLat → CLat) (paths : List CLat) :
    (∀ p ∈ paths, nbestEntryOf srs freq fo wordsFlag align p ∈
      nbestAlternatives srs freq fo wordsFlag align paths)
    ∧ (nbestAlternatives srs freq fo wordsFlag align paths).length =
        paths.length := by
  constructor
  · intro p hp
    exact List.mem_map_of_mem _ hp
  · simp [nbestAlternatives]

/-- C5 witness: the amended theorem applied to the singleton path list. -/
theorem c5_witness :
    emptyCLat ∈ [emptyCLat]
    ∧ nbestEntryOf 0 1 0 true (fun p => p) emptyCLat ∈
        nbestAlternatives 0 1 0 true (fun p => p) [emptyCLat] :=
  ⟨List.mem_singleton.mpr rfl,
    (c5_every_path_appended 0 1 0 true (fun p => p) [emptyCLat]).1 emptyCLat
      (List.mem_singleton.mpr rfl)⟩

/-- C6 counterexample: with a speaker model attached and 60 collected
non-silence frames (at least 50), an N-best extraction still carries no
speaker block, refuting the claim for N-best results. -/
theorem c6_counterexample :
    50 ≤ collectedSpkFrames (List.range 20) 60
    ∧ resultSpkBlock 2 true (List.range 20) 60 0 = none := by
  constructor
  · decide
  · decide

/-- C6 amended: in single-best (MBR) extraction with a speaker model attached
the speaker block is present exactly when at least 50 non-silence
speaker-feature frames were collected; in N-best mode no speaker block is
ever attached. -/
theorem c6_spk_block_iff :
    (∀ (ns : List Nat) (fr fo : Nat),
      (mbrSpkBlock true ns fr fo).isSome = true ↔
        50 ≤ collectedSpkFrames ns (fr - fo * 3))
    ∧ (∀ (ma : Int) (hs : Bool) (ns : List Nat) (fr fo : Nat), ma ≠ 0 →
        resultSpkBlock ma hs ns fr fo = none) := by
  constructor
  · intro ns fr fo
    by_cases h : 50 ≤ collectedSpkFrames ns (fr - fo * 3)
    · simp [mbrSpkBlock, getSpkVectorOk, h]
    · simp [mbrSpkBlock, getSpkVectorOk, h]
  · intro ma hs ns fr fo hma
    simp [resultSpkBlock, hma]

/-- C6 witness: the amended theorem applied at a concrete N-best session. -/
theorem c6_witness :
    (1 : Int) ≠ 0 ∧ resultSpkBlock 1 false [] 9 0 = none :=
  ⟨by decide, c6_spk_block_iff.2 1 false [] 9 0 (by decide)⟩

/-- C7: for each of the three rescoring paths (none, recurrent LM, static
higher-order LM), GetResult applies ScaleLattice(GraphLatticeScale(0.9)) to
the rescored lattice, and the extractor selected by the alternatives mode
receives exactly that scaled lattice. -/
theorem c7_global_rescore_scale (R : RescoreFns) (mode : LmMode)
    (maxAlt : Int) (mbrF nbestF : WLat → String) (clat : WLat) :
    getResultRlat R mode clat =
      scaleLattice (9 / 10) 0 0 1 (rescoredOf R mode clat)
    ∧ getResultDispatch R mode maxAlt mbrF nbestF clat =
        (if maxAlt = 0 then mbrF else nbestF) (getResultRlat R mode clat) := by
  constructor
  · cases mode <;> rfl
  · by_cases h : maxAlt = 0 <;> simp [getResultDispatch, h]

/-- C9 counterexample: on a model with only the half graphs (no precomputed
full graph), a zero-entry grammar leaves decode_fst_ null and the decoder
construction dereferences the null graph, even though the plain constructor
shows a usable graph was available on the model. -/
theorem c9_counterexample :
    (grammarRecognizerCtor grammarFns0 model0 []).outcome =
        CtorOutcome.nullGraphDeref
    ∧ (grammarRecognizerCtor grammarFns0 model0 []).warnedEmptyGrammar = true
    ∧ plainCtor grammarFns0 model0 = CtorOutcome.ok 708 :=
  ⟨rfl, rfl, rfl⟩

/-- C9 amended: a zero-entry grammar is a warning, never KALDI_ERR; the
session uses the precomputed full graph when the model has one; when it does
not, no fallback graph is built and the decoder is constructed from the null
decode_fst_ pointer. -/
theorem c9_empty_grammar_behavior (F : GrammarFns) (m : GrammarModel) :
    ((grammarRecognizerCtor F m []).outcome ≠ CtorOutcome.fatal)
    ∧ (m.hcl.isSome = true →
        (grammarRecognizerCtor F m []).warnedEmptyGrammar = true)
    ∧ (∀ g0, m.hclg = some g0 →
        (grammarRecognizerCtor F m []).outcome = CtorOutcome.ok g0)
    ∧ (m.hclg = none →
        (grammarRecognizerCtor F m []).outcome = CtorOutcome.nullGraphDeref) := by
  cases m with
  | mk hclg hcl g =>
    cases hcl with
    | none =>
      cases hclg with
      | none => simp [grammarRecognizerCtor, finishCtor]
      | some g0 => simp [grammarRecognizerCtor, finishCtor]
    | some h =>
      cases hclg with
      | none => simp [grammarRecognizerCtor, finishCtor]
      | some g0 => simp [grammarRecognizerCtor, finishCtor]

/-- C9 witness: the amended theorem applied to a model with a precomputed
full graph. -/
theorem c9_witness :
    model1.hcl.isSome = true
    ∧ model1.hclg = some 5
    ∧ (grammarRecognizerCtor grammarFns0 model1 []).outcome = CtorOutcome.ok 5
    ∧ (grammarRecognizerCtor grammarFns0 model1 []).warnedEmptyGrammar = true :=
  ⟨rfl, rfl,
    (c9_empty_grammar_behavior grammarFns0 model1).2.2.1 5 rfl,
    (c9_empty_grammar_behavior grammarFns0 model1).2.1 rfl⟩

/-- C3 counterexample: with the engine present, state RUNNING and exactly
20000 frames decoded since the last reset (not below the ceiling), CleanUp
performs the soft reinitialization, not the hard reset the claim's
final clause (always hard-resets otherwise) requires. -/
theorem c3_counterexample :
    sessionBoundary.hasDecoder = true
    ∧ sessionBoundary.state ≠ FINALIZED
    ∧ framesSinceReset sessionBoundary = 20000
    ∧ ¬ framesSinceReset sessionBoundary < 20000
    ∧ cleanUp sessionBoundary = softReinitSpec sessionBoundary
    ∧ cleanUp sessionBoundary ≠ hardResetSpec sessionBoundary := by
  refine ⟨rfl, by decide, by decide, by decide, by decide, fun h => ?_⟩
  exact absurd (congrArg Session.frame_offset h) (by decide)
